import Mathlib

/-!
Shallow embedding of the recipe computation engine of `src/lib/recipeEngine.ts`
(the vector-to-recipe mapping core of the x-music-bar installation).

Numbers are modelled as real numbers (`ℝ`): the source computes with JavaScript
floating-point values and `Math.exp`; the idealised real-number semantics is
the mathematical content of the algorithm.  The source formats its outputs with
`toFixed(1)` at the very end; the embedding keeps the unformatted numeric
values, which is what every quantitative statement below is about.

The recipe list keeps, next to each entry's name and allocated millilitres, the
index of the ingredient in the catalog (`idx`); the source identifies entries
by position in `INGREDIENTS`, and the index is needed to state the
tie-breaking (stability) behaviour of the final sort.  JavaScript's
`Array.prototype.sort` is stable and the comparator `(a, b) => b.ml - a.ml`
orders by `ml` descending; this is modelled by `List.insertionSort` with the
relation `mlDesc`, which is a stable descending sort.
-/

/-- An entry of the static ingredient catalog: a display name and a
5-component SABIT characteristic vector. -/
structure Ingredient where
  name : String
  s : ℝ
  a : ℝ
  b : ℝ
  i : ℝ
  t : ℝ

/-- The engine-domain input vector (each component intended in `[0,1]`). -/
structure SABITInput where
  s : ℝ
  a : ℝ
  b : ℝ
  i : ℝ
  t : ℝ

/-- The display-domain vector (each component intended in `[0,100]`). -/
structure VectorValues where
  S : ℝ
  A : ℝ
  B : ℝ
  I : ℝ
  T : ℝ

/-- The static 15-ingredient catalog, values exactly as authored in
`src/lib/recipeEngine.ts`. -/
def INGREDIENTS : List Ingredient := [
  ⟨"ジン (Tanqueray)",     0.00, 0.00, 0.15, 0.95, 0.00⟩,
  ⟨"ウォッカ",             0.00, 0.00, 0.00, 0.80, 0.00⟩,
  ⟨"ウイスキー (Jameson)", 0.05, 0.00, 0.20, 0.80, 0.00⟩,
  ⟨"ホワイトラム",         0.08, 0.00, 0.00, 0.80, 0.00⟩,
  ⟨"カンパリ",             0.31, 0.00, 1.00, 0.50, 0.00⟩,
  ⟨"チンザノロッソ",       0.19, 0.15, 0.40, 0.30, 0.00⟩,
  ⟨"カルーア",             0.55, 0.05, 0.45, 0.40, 0.00⟩,
  ⟨"コアントロー",         0.31, 0.10, 0.05, 0.80, 0.00⟩,
  ⟨"レモンジュース",       0.05, 0.95, 0.05, 0.00, 0.00⟩,
  ⟨"ライムジュース",       0.05, 1.00, 0.05, 0.00, 0.00⟩,
  ⟨"シンプルシロップ",     1.00, 0.00, 0.00, 0.00, 0.10⟩,
  ⟨"グレナディン",         0.90, 0.20, 0.00, 0.00, 0.20⟩,
  ⟨"トニックウォーター",   0.12, 0.20, 0.45, 0.00, 0.80⟩,
  ⟨"ジンジャーエール",     0.13, 0.20, 0.00, 0.00, 0.90⟩,
  ⟨"ソーダ (強炭酸)",      0.00, 0.00, 0.00, 0.00, 1.00⟩]

/-- `const totalVolume = 60 + (90 * input.t)`. -/
def totalVolume (input : SABITInput) : ℝ := 60 + 90 * input.t

/-- The 5-component dot product of the input vector and an ingredient's
characteristic vector. -/
def dotProduct (input : SABITInput) (ing : Ingredient) : ℝ :=
  input.s * ing.s + input.a * ing.a + input.b * ing.b + input.i * ing.i + input.t * ing.t

/-- `Math.max(0, dotProduct)`: the zero-floored affinity score. -/
def score (input : SABITInput) (ing : Ingredient) : ℝ :=
  max 0 (dotProduct input ing)

/-- The softmax temperature constant `const sigma = 12.0`. -/
def sigma : ℝ := 12.0

/-- `Math.exp(s.score * sigma)`: one softmax weight. -/
noncomputable def expScore (input : SABITInput) (ing : Ingredient) : ℝ :=
  Real.exp (score input ing * sigma)

/-- `expScores.reduce((acc, val) => acc + val, 0)`: the softmax denominator. -/
noncomputable def sumExpScores (input : SABITInput) : ℝ :=
  (INGREDIENTS.map (expScore input)).sum

/-- `(expScores[i] / sumExpScores) * totalVolume`: the pre-filter allocated
amount of one ingredient. -/
noncomputable def amount (input : SABITInput) (ing : Ingredient) : ℝ :=
  expScore input ing / sumExpScores input * totalVolume input

/-- An entry of the computed recipe: catalog index, name, allocated ml. -/
structure RecipeEntry where
  idx : ℕ
  name : String
  ml : ℝ

/-- Pair each list element with its position, starting from `n`. -/
def withIdx : ℕ → List Ingredient → List (ℕ × Ingredient)
  | _, [] => []
  | n, x :: xs => (n, x) :: withIdx (n + 1) xs

/-- The mapped-but-unfiltered recipe list: every catalog ingredient with its
allocated amount, in catalog order. -/
noncomputable def preFilterRecipe (input : SABITInput) : List RecipeEntry :=
  (withIdx 0 INGREDIENTS).map (fun p => ⟨p.1, p.2.name, amount input p.2⟩)

/-- The sort relation of `.sort((a, b) => b.ml - a.ml)`: amounts descending. -/
def mlDesc (e f : RecipeEntry) : Prop := f.ml ≤ e.ml

noncomputable instance : DecidableRel mlDesc := fun e f => Real.decidableLE f.ml e.ml

instance : IsTotal RecipeEntry mlDesc := ⟨fun e f => le_total f.ml e.ml⟩

instance : IsTrans RecipeEntry mlDesc := ⟨fun _ _ _ h1 h2 => le_trans h2 h1⟩

/-- The result of the engine: numeric total volume and the filtered, sorted
recipe list. -/
structure RecipeResult where
  totalVolume : ℝ
  recipe : List RecipeEntry

/-- `calculateDynamicRecipe` of `src/lib/recipeEngine.ts`: total volume from
Texture, dot-product scores floored at 0, softmax weights at temperature 12.0,
volume allocation, `filter(item => item.ml >= 1.0)`, stable descending sort. -/
noncomputable def calculateDynamicRecipe (input : SABITInput) : RecipeResult :=
  ⟨totalVolume input,
    List.insertionSort mlDesc
      ((preFilterRecipe input).filter (fun e => decide (1 ≤ e.ml)))⟩

/-- `vectorsToSABIT` of `src/lib/recipeEngine.ts`: divide each display-domain
component by 100. -/
noncomputable def vectorsToSABIT (vectors : VectorValues) : SABITInput :=
  ⟨vectors.S / 100, vectors.A / 100, vectors.B / 100, vectors.I / 100, vectors.T / 100⟩

/-- C2: for every input the total volume returned by `calculateDynamicRecipe`
is `60 + 90 * T`; `T = 0` yields `60`, `T = 1` yields `150`, and the volume
depends only on the Texture component. -/
theorem totalVolume_affine :
    (∀ input : SABITInput, (calculateDynamicRecipe input).totalVolume = 60 + 90 * input.t) ∧
    (calculateDynamicRecipe ⟨0, 0, 0, 0, 0⟩).totalVolume = 60 ∧
    (calculateDynamicRecipe ⟨0, 0, 0, 0, 1⟩).totalVolume = 150 ∧
    (∀ s a b i s' a' b' i' t : ℝ,
      (calculateDynamicRecipe ⟨s, a, b, i, t⟩).totalVolume =
        (calculateDynamicRecipe ⟨s', a', b', i', t⟩).totalVolume) := by
  refine ⟨fun input => rfl, ?_, ?_, fun s a b i s' a' b' i' t => rfl⟩
  · show totalVolume _ = _
    simp [totalVolume]
  · show totalVolume _ = _
    simp [totalVolume]
    norm_num

/-- C8: the total volume is monotone non-decreasing in the Texture component,
the other four components held fixed. -/
theorem totalVolume_monotone_texture (s a b i t₁ t₂ : ℝ) (h : t₁ ≤ t₂) :
    (calculateDynamicRecipe ⟨s, a, b, i, t₁⟩).totalVolume ≤
      (calculateDynamicRecipe ⟨s, a, b, i, t₂⟩).totalVolume := by
  show totalVolume _ ≤ totalVolume _
  simp only [totalVolume]
  nlinarith

/-- Witness for C8 at `t₁ = 0 ≤ 1 = t₂`. -/
theorem totalVolume_monotone_texture_witness :
    (calculateDynamicRecipe ⟨0, 0, 0, 0, (0 : ℝ)⟩).totalVolume ≤
      (calculateDynamicRecipe ⟨0, 0, 0, 0, (1 : ℝ)⟩).totalVolume :=
  totalVolume_monotone_texture 0 0 0 0 0 1 (by norm_num)

/-- C9: `vectorsToSABIT` divides every component by 100 with no clamping; all
zeros map to all zeros and all 100s map to all ones. -/
theorem vectorsToSABIT_componentwise_div :
    (∀ v : VectorValues,
      vectorsToSABIT v = ⟨v.S / 100, v.A / 100, v.B / 100, v.I / 100, v.T / 100⟩) ∧
    vectorsToSABIT ⟨0, 0, 0, 0, 0⟩ = ⟨0, 0, 0, 0, 0⟩ ∧
    vectorsToSABIT ⟨100, 100, 100, 100, 100⟩ = ⟨1, 1, 1, 1, 1⟩ := by
  refine ⟨fun v => rfl, ?_, ?_⟩ <;> simp [vectorsToSABIT]


/-- Every softmax weight is at least 1: the floored score is non-negative and
the temperature is positive. -/
theorem one_le_expScore (input : SABITInput) (ing : Ingredient) :
    1 ≤ expScore input ing := by
  unfold expScore
  apply Real.one_le_exp
  apply mul_nonneg (le_max_left 0 _)
  norm_num [sigma]

/-- A list of reals that are all at least 1 sums to at least its length. -/
theorem length_le_sum_real : ∀ l : List ℝ, (∀ x ∈ l, 1 ≤ x) → (l.length : ℝ) ≤ l.sum
  | [], _ => by simp
  | x :: l, h => by
    have h1 := h x (List.mem_cons_self x l)
    have h2 := length_le_sum_real l (fun y hy => h y (List.mem_cons_of_mem x hy))
    simp only [List.length_cons, List.sum_cons, Nat.cast_succ]
    linarith

/-- The softmax denominator is at least the catalog size. -/
theorem fifteen_le_sumExpScores (input : SABITInput) : 15 ≤ sumExpScores input := by
  have h : ∀ x ∈ INGREDIENTS.map (expScore input), (1 : ℝ) ≤ x := by
    intro x hx
    rcases List.mem_map.mp hx with ⟨ing, _, rfl⟩
    exact one_le_expScore input ing
  have hlen : ((INGREDIENTS.map (expScore input)).length : ℝ) = 15 := by
    simp [INGREDIENTS]
  calc (15 : ℝ) = ((INGREDIENTS.map (expScore input)).length : ℝ) := hlen.symm
    _ ≤ (INGREDIENTS.map (expScore input)).sum := length_le_sum_real _ h

/-- The softmax denominator is strictly positive. -/
theorem sumExpScores_pos (input : SABITInput) : 0 < sumExpScores input :=
  lt_of_lt_of_le (by norm_num) (fifteen_le_sumExpScores input)

/-- C10: the softmax denominator of `calculateDynamicRecipe` is at least 15
(every zero-floored score is non-negative, so every exponential weight is at
least 1) and in particular strictly positive, so the allocation divisions
never divide by zero. -/
theorem sumExpScores_ge_fifteen_and_pos (input : SABITInput) :
    15 ≤ sumExpScores input ∧ 0 < sumExpScores input :=
  ⟨fifteen_le_sumExpScores input, sumExpScores_pos input⟩

/-- Mapping a function of the ingredient over the indexed catalog forgets the
indices. -/
theorem withIdx_map_snd (g : Ingredient → ℝ) : ∀ (n : ℕ) (l : List Ingredient),
    (withIdx n l).map (fun p => g p.2) = l.map g
  | _, [] => rfl
  | n, x :: xs => by
    simp only [withIdx, List.map_cons]
    rw [withIdx_map_snd g (n + 1) xs]

/-- C7: the pre-filter, pre-rounding allocated amounts of all 15 catalog
ingredients sum exactly to the total volume (the softmax distribution sums
to 1). -/
theorem preFilter_amounts_sum_to_volume (input : SABITInput) :
    ((preFilterRecipe input).map (fun e => e.ml)).sum =
      (calculateDynamicRecipe input).totalVolume := by
  show _ = totalVolume input
  have h1 : (preFilterRecipe input).map (fun e => e.ml) = INGREDIENTS.map (amount input) := by
    simp only [preFilterRecipe, List.map_map]
    exact withIdx_map_snd (amount input) 0 INGREDIENTS
  have h2 : INGREDIENTS.map (amount input) =
      INGREDIENTS.map (fun ing =>
        expScore input ing * (totalVolume input / sumExpScores input)) := by
    apply List.map_congr_left
    intro ing _
    unfold amount
    rw [div_mul_eq_mul_div, mul_div_assoc]
  rw [h1, h2, List.sum_map_mul_right]
  show sumExpScores input * _ = _
  rw [mul_comm, div_mul_cancel₀ _ (ne_of_gt (sumExpScores_pos input))]

/-- C3 counterexample: at the out-of-range input `{S:0,A:0,B:0,I:0,T:2}` the
engine returns total volume 240, not the 150 of the clamped input
`{S:0,A:0,B:0,I:0,T:1}`, and the volume leaves `[60,150]`: no clamping is
performed. -/
theorem no_clamping_counterexample :
    (calculateDynamicRecipe ⟨0, 0, 0, 0, 2⟩).totalVolume = 240 ∧
    (calculateDynamicRecipe ⟨0, 0, 0, 0, 1⟩).totalVolume = 150 ∧
    (calculateDynamicRecipe ⟨0, 0, 0, 0, 2⟩).totalVolume ≠
      (calculateDynamicRecipe ⟨0, 0, 0, 0, 1⟩).totalVolume ∧
    150 < (calculateDynamicRecipe ⟨0, 0, 0, 0, 2⟩).totalVolume := by
  refine ⟨?_, ?_, ?_, ?_⟩
  · show totalVolume _ = _
    norm_num [totalVolume]
  · show totalVolume _ = _
    norm_num [totalVolume]
  · show totalVolume _ ≠ totalVolume _
    norm_num [totalVolume]
  · show 150 < totalVolume _
    norm_num [totalVolume]

/-- C3 amended: `calculateDynamicRecipe` performs no clamping and uses the
components as given; for inputs whose Texture component lies in `[0,1]` the
total volume lies in `[60,150]`. -/
theorem volume_in_range_of_texture_in_range (input : SABITInput)
    (h0 : 0 ≤ input.t) (h1 : input.t ≤ 1) :
    60 ≤ (calculateDynamicRecipe input).totalVolume ∧
      (calculateDynamicRecipe input).totalVolume ≤ 150 := by
  constructor
  · show 60 ≤ totalVolume input
    unfold totalVolume
    nlinarith
  · show totalVolume input ≤ 150
    unfold totalVolume
    nlinarith

/-- Witness for the amended C3 at the input `{S:0,A:0,B:0,I:0,T:1}`. -/
theorem volume_in_range_of_texture_in_range_witness :
    60 ≤ (calculateDynamicRecipe ⟨0, 0, 0, 0, 1⟩).totalVolume ∧
      (calculateDynamicRecipe ⟨0, 0, 0, 0, 1⟩).totalVolume ≤ 150 :=
  volume_in_range_of_texture_in_range ⟨0, 0, 0, 0, 1⟩ (by norm_num) (by norm_num)

/-- C4 counterexample: the conjoined catalog invariant fails because no
catalog entry has Intensity component exactly 1.0 (the axis maximum is the
gin's 0.95). -/
theorem catalog_axis_counterexample :
    ¬ (INGREDIENTS.length = 15 ∧
      (∀ ing ∈ INGREDIENTS,
        (0 ≤ ing.s ∧ ing.s ≤ 1) ∧ (0 ≤ ing.a ∧ ing.a ≤ 1) ∧ (0 ≤ ing.b ∧ ing.b ≤ 1) ∧
        (0 ≤ ing.i ∧ ing.i ≤ 1) ∧ (0 ≤ ing.t ∧ ing.t ≤ 1)) ∧
      (∃ ing ∈ INGREDIENTS, ing.s = 1) ∧ (∃ ing ∈ INGREDIENTS, ing.a = 1) ∧
      (∃ ing ∈ INGREDIENTS, ing.b = 1) ∧ (∃ ing ∈ INGREDIENTS, ing.i = 1) ∧
      (∃ ing ∈ INGREDIENTS, ing.t = 1)) := by
  rintro ⟨-, -, -, -, -, ⟨ing, hmem, hi⟩, -⟩
  revert hi
  fin_cases hmem <;> norm_num

/-- C4 amended: the catalog has exactly 15 entries, every component of every
characteristic vector lies in `[0,1]`, and the S, A, B and T axes each contain
an entry with component exactly 1.0; the Intensity axis instead peaks at 0.95
(attained by the gin entry), with no entry at 1.0. -/
theorem catalog_invariants :
    INGREDIENTS.length = 15 ∧
    (∀ ing ∈ INGREDIENTS,
      (0 ≤ ing.s ∧ ing.s ≤ 1) ∧ (0 ≤ ing.a ∧ ing.a ≤ 1) ∧ (0 ≤ ing.b ∧ ing.b ≤ 1) ∧
      (0 ≤ ing.i ∧ ing.i ≤ 1) ∧ (0 ≤ ing.t ∧ ing.t ≤ 1)) ∧
    (∃ ing ∈ INGREDIENTS, ing.s = 1) ∧ (∃ ing ∈ INGREDIENTS, ing.a = 1) ∧
    (∃ ing ∈ INGREDIENTS, ing.b = 1) ∧ (∃ ing ∈ INGREDIENTS, ing.t = 1) ∧
    (∀ ing ∈ INGREDIENTS, ing.i ≤ 0.95) ∧ (∃ ing ∈ INGREDIENTS, ing.i = 0.95) := by
  refine ⟨rfl, ?_, ?_, ?_, ?_, ?_, ?_, ?_⟩
  · intro ing hmem
    fin_cases hmem <;> norm_num
  · exact ⟨⟨"シンプルシロップ", 1.00, 0.00, 0.00, 0.00, 0.10⟩, by simp [INGREDIENTS], by norm_num⟩
  · exact ⟨⟨"ライムジュース", 0.05, 1.00, 0.05, 0.00, 0.00⟩, by simp [INGREDIENTS], by norm_num⟩
  · exact ⟨⟨"カンパリ", 0.31, 0.00, 1.00, 0.50, 0.00⟩, by simp [INGREDIENTS], by norm_num⟩
  · exact ⟨⟨"ソーダ (強炭酸)", 0.00, 0.00, 0.00, 0.00, 1.00⟩, by simp [INGREDIENTS], by norm_num⟩
  · intro ing hmem
    fin_cases hmem <;> norm_num
  · exact ⟨⟨"ジン (Tanqueray)", 0.00, 0.00, 0.15, 0.95, 0.00⟩, by simp [INGREDIENTS], by norm_num⟩

/-- Every index in `withIdx n l` is at least `n`. -/
theorem le_fst_of_mem_withIdx : ∀ (n : ℕ) (l : List Ingredient), ∀ q ∈ withIdx n l, n ≤ q.1
  | _, [], q, hq => absurd hq (List.not_mem_nil q)
  | n, x :: xs, q, hq => by
    simp only [withIdx] at hq
    rcases List.mem_cons.mp hq with rfl | hq
    · exact le_refl n
    · exact le_trans (Nat.le_succ n) (le_fst_of_mem_withIdx (n + 1) xs q hq)

/-- The indices produced by `withIdx` are strictly increasing. -/
theorem pairwise_lt_withIdx : ∀ (n : ℕ) (l : List Ingredient),
    (withIdx n l).Pairwise (fun p q => p.1 < q.1)
  | _, [] => List.Pairwise.nil
  | n, x :: xs => by
    simp only [withIdx]
    refine List.pairwise_cons.mpr ⟨?_, pairwise_lt_withIdx (n + 1) xs⟩
    intro q hq
    exact lt_of_lt_of_le (Nat.lt_succ_self n) (le_fst_of_mem_withIdx (n + 1) xs q hq)

/-- The unfiltered recipe list carries strictly increasing catalog indices. -/
theorem pairwise_idx_preFilter (input : SABITInput) :
    (preFilterRecipe input).Pairwise (fun e f => e.idx < f.idx) := by
  unfold preFilterRecipe
  exact (pairwise_lt_withIdx 0 INGREDIENTS).map _ (fun p q h => h)

/-- Inserting an element whose catalog index is below every index in the list
preserves the stability invariant: equal amounts are index-ordered. -/
theorem pairwise_stable_orderedInsert (x : RecipeEntry) :
    ∀ l : List RecipeEntry, (∀ y ∈ l, x.idx < y.idx) →
      l.Pairwise (fun e f => e.ml = f.ml → e.idx < f.idx) →
      (List.orderedInsert mlDesc x l).Pairwise (fun e f => e.ml = f.ml → e.idx < f.idx)
  | [], _, _ => List.pairwise_singleton _ x
  | y :: l, h1, h2 => by
    have hy := List.pairwise_cons.mp h2
    by_cases hxy : mlDesc x y
    · rw [List.orderedInsert_of_le mlDesc l hxy]
      refine List.pairwise_cons.mpr ⟨?_, h2⟩
      intro z hz _
      exact h1 z hz
    · simp only [List.orderedInsert, if_neg hxy]
      refine List.pairwise_cons.mpr ⟨?_, ?_⟩
      · intro z hz
        rcases (List.mem_orderedInsert mlDesc).mp hz with rfl | hz'
        · intro hml
          exact absurd (le_of_eq hml) hxy
        · exact hy.1 z hz'
      · exact pairwise_stable_orderedInsert x l
          (fun y' hy' => h1 y' (List.mem_cons_of_mem y hy')) hy.2

/-- Sorting a list with strictly increasing catalog indices by `mlDesc` keeps
entries of equal amount in index order: the sort is stable. -/
theorem pairwise_stable_insertionSort :
    ∀ l : List RecipeEntry, l.Pairwise (fun e f => e.idx < f.idx) →
      (List.insertionSort mlDesc l).Pairwise (fun e f => e.ml = f.ml → e.idx < f.idx)
  | [], _ => List.Pairwise.nil
  | x :: l, h => by
    have hh := List.pairwise_cons.mp h
    simp only [List.insertionSort]
    exact pairwise_stable_orderedInsert x (List.insertionSort mlDesc l)
      (fun y hy => hh.1 y ((List.mem_insertionSort mlDesc).mp hy))
      (pairwise_stable_insertionSort l hh.2)

/-- C5: the recipe list of `calculateDynamicRecipe` keeps only entries whose
pre-rounding amount is at least 1.0 (it is a permutation of the thresholded
unfiltered list), is sorted by amount descending, and breaks amount ties by
catalog declaration order (the sort is stable). -/
theorem recipe_filtered_sorted_stable (input : SABITInput) :
    (∀ e ∈ (calculateDynamicRecipe input).recipe, 1 ≤ e.ml) ∧
    ((calculateDynamicRecipe input).recipe).Sorted mlDesc ∧
    ((calculateDynamicRecipe input).recipe).Pairwise
      (fun e f => e.ml = f.ml → e.idx < f.idx) ∧
    ((calculateDynamicRecipe input).recipe).Perm
      ((preFilterRecipe input).filter (fun e => decide (1 ≤ e.ml))) := by
  simp only [calculateDynamicRecipe]
  refine ⟨?_, ?_, ?_, ?_⟩
  · intro e he
    have he' := (List.mem_insertionSort mlDesc).mp he
    exact of_decide_eq_true (List.mem_filter.mp he').2
  · exact List.sorted_insertionSort mlDesc _
  · exact pairwise_stable_insertionSort _
      ((pairwise_idx_preFilter input).sublist (List.filter_sublist _))
  · exact List.perm_insertionSort mlDesc _

/-- At the all-zero input every affinity score is 0. -/
theorem score_zeroInput (ing : Ingredient) : score ⟨0, 0, 0, 0, 0⟩ ing = 0 := by
  simp [score, dotProduct]

/-- At the all-zero input every softmax weight is `exp 0 = 1`. -/
theorem expScore_zeroInput (ing : Ingredient) : expScore ⟨0, 0, 0, 0, 0⟩ ing = 1 := by
  simp [expScore, score_zeroInput, Real.exp_zero]

/-- At the all-zero input the softmax denominator is the catalog size 15. -/
theorem sumExpScores_zeroInput : sumExpScores ⟨0, 0, 0, 0, 0⟩ = 15 := by
  unfold sumExpScores
  rw [List.map_congr_left (fun ing _ => expScore_zeroInput ing)]
  norm_num [INGREDIENTS]

/-- At the all-zero input every ingredient is allocated `60 / 15 = 4` ml. -/
theorem amount_zeroInput (ing : Ingredient) : amount ⟨0, 0, 0, 0, 0⟩ ing = 4 := by
  unfold amount
  rw [expScore_zeroInput, sumExpScores_zeroInput]
  show 1 / 15 * totalVolume _ = 4
  norm_num [totalVolume]

/-- Sorting by `mlDesc` fixes any list of constant amount: every insertion
happens at the front. -/
theorem insertionSort_eq_of_const_ml (c : ℝ) :
    ∀ l : List RecipeEntry, (∀ e ∈ l, e.ml = c) → List.insertionSort mlDesc l = l
  | [], _ => rfl
  | x :: l, h => by
    simp only [List.insertionSort]
    rw [insertionSort_eq_of_const_ml c l (fun e he => h e (List.mem_cons_of_mem x he))]
    cases l with
    | nil => rfl
    | cons y l' =>
      refine List.orderedInsert_of_le mlDesc l' ?_
      show y.ml ≤ x.ml
      rw [h x (List.mem_cons_self x _), h y (List.mem_cons_of_mem _ (List.mem_cons_self y l'))]

/-- C6: at the all-zero input the engine returns total volume 60 and all 15
catalog ingredients at 4 ml each (the softmax is uniform, `60 / 15 = 4` passes
the 1 ml threshold), listed in catalog declaration order since all amounts
tie. -/
theorem zero_input_uniform_recipe :
    (calculateDynamicRecipe ⟨0, 0, 0, 0, 0⟩).totalVolume = 60 ∧
    (calculateDynamicRecipe ⟨0, 0, 0, 0, 0⟩).recipe =
      [⟨0, "ジン (Tanqueray)", 4⟩, ⟨1, "ウォッカ", 4⟩, ⟨2, "ウイスキー (Jameson)", 4⟩,
       ⟨3, "ホワイトラム", 4⟩, ⟨4, "カンパリ", 4⟩, ⟨5, "チンザノロッソ", 4⟩,
       ⟨6, "カルーア", 4⟩, ⟨7, "コアントロー", 4⟩, ⟨8, "レモンジュース", 4⟩,
       ⟨9, "ライムジュース", 4⟩, ⟨10, "シンプルシロップ", 4⟩, ⟨11, "グレナディン", 4⟩,
       ⟨12, "トニックウォーター", 4⟩, ⟨13, "ジンジャーエール", 4⟩,
       ⟨14, "ソーダ (強炭酸)", 4⟩] := by
  have hpre : preFilterRecipe ⟨0, 0, 0, 0, 0⟩ =
      [⟨0, "ジン (Tanqueray)", 4⟩, ⟨1, "ウォッカ", 4⟩, ⟨2, "ウイスキー (Jameson)", 4⟩,
       ⟨3, "ホワイトラム", 4⟩, ⟨4, "カンパリ", 4⟩, ⟨5, "チンザノロッソ", 4⟩,
       ⟨6, "カルーア", 4⟩, ⟨7, "コアントロー", 4⟩, ⟨8, "レモンジュース", 4⟩,
       ⟨9, "ライムジュース", 4⟩, ⟨10, "シンプルシロップ", 4⟩, ⟨11, "グレナディン", 4⟩,
       ⟨12, "トニックウォーター", 4⟩, ⟨13, "ジンジャーエール", 4⟩,
       ⟨14, "ソーダ (強炭酸)", 4⟩] := by
    simp [preFilterRecipe, INGREDIENTS, withIdx, amount_zeroInput]
  constructor
  · show totalVolume _ = 60
    norm_num [totalVolume]
  · show List.insertionSort mlDesc
        ((preFilterRecipe ⟨0, 0, 0, 0, 0⟩).filter (fun e => decide (1 ≤ e.ml))) = _
    rw [hpre]
    have hfil : List.filter (fun e => decide ((1 : ℝ) ≤ e.ml))
        [(⟨0, "ジン (Tanqueray)", 4⟩ : RecipeEntry), ⟨1, "ウォッカ", 4⟩,
         ⟨2, "ウイスキー (Jameson)", 4⟩, ⟨3, "ホワイトラム", 4⟩, ⟨4, "カンパリ", 4⟩,
         ⟨5, "チンザノロッソ", 4⟩, ⟨6, "カルーア", 4⟩, ⟨7, "コアントロー", 4⟩,
         ⟨8, "レモンジュース", 4⟩, ⟨9, "ライムジュース", 4⟩, ⟨10, "シンプルシロップ", 4⟩,
         ⟨11, "グレナディン", 4⟩, ⟨12, "トニックウォーター", 4⟩,
         ⟨13, "ジンジャーエール", 4⟩, ⟨14, "ソーダ (強炭酸)", 4⟩] =
        [⟨0, "ジン (Tanqueray)", 4⟩, ⟨1, "ウォッカ", 4⟩, ⟨2, "ウイスキー (Jameson)", 4⟩,
         ⟨3, "ホワイトラム", 4⟩, ⟨4, "カンパリ", 4⟩, ⟨5, "チンザノロッソ", 4⟩,
         ⟨6, "カルーア", 4⟩, ⟨7, "コアントロー", 4⟩, ⟨8, "レモンジュース", 4⟩,
         ⟨9, "ライムジュース", 4⟩, ⟨10, "シンプルシロップ", 4⟩, ⟨11, "グレナディン", 4⟩,
         ⟨12, "トニックウォーター", 4⟩, ⟨13, "ジンジャーエール", 4⟩,
         ⟨14, "ソーダ (強炭酸)", 4⟩] := by
      norm_num [List.filter_cons]
    rw [hfil]
    apply insertionSort_eq_of_const_ml 4
    intro e he
    fin_cases he <;> rfl

/-- C1: for every input with all five components in `[0,1]`, every catalog
ingredient's pre-filter allocated amount is the softmax (temperature 12.0) of
the zero-floored dot-product scores times the total volume:
`exp(max(0, input·c_i) * 12) / Σ_j exp(max(0, input·c_j) * 12) * (60 + 90 T)`. -/
theorem preFilter_allocation_is_softmax (input : SABITInput)
    (_hs0 : 0 ≤ input.s) (_hs1 : input.s ≤ 1) (_ha0 : 0 ≤ input.a) (_ha1 : input.a ≤ 1)
    (_hb0 : 0 ≤ input.b) (_hb1 : input.b ≤ 1) (_hi0 : 0 ≤ input.i) (_hi1 : input.i ≤ 1)
    (_ht0 : 0 ≤ input.t) (_ht1 : input.t ≤ 1) :
    preFilterRecipe input = (withIdx 0 INGREDIENTS).map (fun p =>
      ⟨p.1, p.2.name,
        Real.exp (max 0 (input.s * p.2.s + input.a * p.2.a + input.b * p.2.b +
            input.i * p.2.i + input.t * p.2.t) * 12.0) /
          (INGREDIENTS.map (fun j => Real.exp (max 0 (input.s * j.s + input.a * j.a +
            input.b * j.b + input.i * j.i + input.t * j.t) * 12.0))).sum *
          (60 + 90 * input.t)⟩) :=
  rfl

/-- Witness for C1 at the all-zero input (all components in `[0,1]`). -/
theorem preFilter_allocation_is_softmax_witness :
    preFilterRecipe ⟨0, 0, 0, 0, 0⟩ = (withIdx 0 INGREDIENTS).map (fun p =>
      ⟨p.1, p.2.name,
        Real.exp (max 0 ((0 : ℝ) * p.2.s + 0 * p.2.a + 0 * p.2.b +
            0 * p.2.i + 0 * p.2.t) * 12.0) /
          (INGREDIENTS.map (fun j => Real.exp (max 0 ((0 : ℝ) * j.s + 0 * j.a +
            0 * j.b + 0 * j.i + 0 * j.t) * 12.0))).sum *
          (60 + 90 * 0)⟩) :=
  preFilter_allocation_is_softmax ⟨0, 0, 0, 0, 0⟩ (by norm_num) (by norm_num)
    (by norm_num) (by norm_num) (by norm_num) (by norm_num) (by norm_num)
    (by norm_num) (by norm_num) (by norm_num)
